import Mathlib

/-!
Verification of the aevion-shield consensus core against its specification.

The definitions below are a shallow embedding of the JavaScript sources under
src/cloudflare-workers/.  JavaScript IEEE-754 doubles are modelled by ℚ: every
concrete input used below (quarters, tenths, hundredths) is exactly
representable in binary doubles, and every arithmetic step performed on these
inputs by the source (sums of at most a handful of such values, divisions by
small integers that happen to be exact at the chosen inputs, comparisons
against exactly representable constants) is exact in double precision, so the
rational model agrees with the float computation at each input used in a
theorem.  Wall-clock timestamps and cryptographic hash values, which the source
attaches as opaque metadata, are carried as inert parameters.

Comparisons of the form sqrt v > c in the source are embedded as v > c ^ 2,
which is equivalent for v ≥ 0 (every v compared this way is a variance, hence a
sum of squares divided by a positive count); the lemma
sqrt_variance_gt_iff below records the equivalence against Real.sqrt.
-/

/- ================================================================
   Part 1 — Shield Consensus engine
   (src/cloudflare-workers/vetproof-consensus.js, class ShieldConsensus)
   ================================================================ -/

/-- One stored vote row (table votes, lines 33-41); the model id is the key of
the row and is kept separately, as in submitVote(modelId, vote). -/
structure Vote where
  verdict : String
  confidence : ℚ
  coherence_score : ℚ
  reasoning : String
deriving DecidableEq, Repr

/-- σ_var: the 0.25 standard-deviation bound of line 140
(haltTriggered = confidenceStdDev > 0.25). -/
def sigmaVar : ℚ := 1/4

/-- verdictCounts[vote.verdict] = (verdictCounts[vote.verdict] || 0) + 1
(line 113): bump the count of key k in an insertion-ordered association list,
appending a fresh entry when the key is new, exactly as JavaScript object keys
are created in insertion order. -/
def bumpCountN (acc : List (String × ℕ)) (k : String) : List (String × ℕ) :=
  if acc.any (fun p => p.1 == k) then
    acc.map (fun p => if p.1 == k then (p.1, p.2 + 1) else p)
  else acc ++ [(k, 1)]

/-- The verdictCounts object of lines 108-116, built by the for-loop over the
votes in order. -/
def countVerdicts (votes : List Vote) : List (String × ℕ) :=
  votes.foldl (fun acc v => bumpCountN acc v.verdict) []

/-- Object.entries(verdictCounts).sort(([,a],[,b]) => b - a)[0] (lines
119-120): the stable descending sort by count followed by taking the first
entry returns the earliest-inserted entry of maximal count, which this left
fold computes directly. -/
def consTopEntry (votes : List Vote) : String × ℕ :=
  (countVerdicts votes).foldl (fun best p => if best.2 < p.2 then p else best) ("", 0)

/-- majorityPct = majorityCount / n (line 123). -/
def majorityPct (votes : List Vote) : ℚ :=
  ((consTopEntry votes).2 : ℚ) / (votes.length : ℚ)

/-- bftThreshold = (2 * n + 2) / (3 * n) (line 126). -/
def consBftThreshold (n : ℕ) : ℚ := (2 * n + 2 : ℚ) / (3 * n : ℚ)

/-- hasConsensus = majorityPct >= bftThreshold (line 127). -/
def consHasConsensus (votes : List Vote) : Bool :=
  decide (consBftThreshold votes.length ≤ majorityPct votes)

/-- totalConfidence accumulated by the for-loop of lines 112-116, then
avgConfidence = totalConfidence / n (line 130). -/
def consAvgConfidence (votes : List Vote) : ℚ :=
  (votes.foldl (fun s v => s + v.confidence) 0) / (votes.length : ℚ)

/-- avgCoherence = totalCoherence / n (line 131). -/
def consAvgCoherence (votes : List Vote) : ℚ :=
  (votes.foldl (fun s v => s + v.coherence_score) 0) / (votes.length : ℚ)

/-- confidenceVariance = votes.reduce((sum, v) => sum + (v.confidence -
avgConfidence)^2, 0) / n (lines 134-136). -/
def confVariance (votes : List Vote) : ℚ :=
  (votes.foldl (fun s v => s + (v.confidence - consAvgConfidence votes) ^ 2) 0)
    / (votes.length : ℚ)

/-- haltTriggered = confidenceStdDev > 0.25 (line 140) where confidenceStdDev
= sqrt(confidenceVariance) (line 137); embedded as variance > σ_var², which is
equivalent since the variance is nonnegative (see sqrt_variance_gt_iff). -/
def consHaltTriggered (votes : List Vote) : Bool :=
  decide (sigmaVar ^ 2 < confVariance votes)

/-- The object returned by calculateConsensus for a non-empty vote list
(lines 142-155).  confidence_variance carries the value whose square root the
source stores as confidence_std_dev. -/
structure ConsensusSnapshot where
  status : String
  verdict : String
  agreement_pct : ℚ
  bft_threshold : ℚ
  avg_confidence : ℚ
  avg_coherence : ℚ
  confidence_variance : ℚ
  halt_triggered : Bool
  total_votes : ℕ
  fault_tolerance : ℕ
  verdict_distribution : List (String × ℕ)
deriving DecidableEq, Repr

/-- The non-empty branch of calculateConsensus (lines 104-155). -/
def consensusOf (votes : List Vote) : ConsensusSnapshot :=
  { status := if consHasConsensus votes then "CONSENSUS" else "DISAGREEMENT"
  , verdict := (consTopEntry votes).1
  , agreement_pct := majorityPct votes
  , bft_threshold := consBftThreshold votes.length
  , avg_confidence := consAvgConfidence votes
  , avg_coherence := consAvgCoherence votes
  , confidence_variance := confVariance votes
  , halt_triggered := consHaltTriggered votes
  , total_votes := votes.length
  , fault_tolerance := (votes.length - 1) / 3
  , verdict_distribution := countVerdicts votes }

/-- calculateConsensus result: the early PENDING return of lines 100-102
versus the computed snapshot. -/
inductive ConsensusResult where
  | pending
  | done (snap : ConsensusSnapshot)
deriving DecidableEq, Repr

/-- calculateConsensus (lines 99-156): empty vote list short-circuits to
PENDING ("No votes yet") before any division is performed. -/
def calculateConsensus (votes : List Vote) : ConsensusResult :=
  match votes with
  | [] => ConsensusResult.pending
  | v :: rest => ConsensusResult.done (consensusOf (v :: rest))

/-- Insert a vote into a list ordered by descending confidence, keeping the
relative order of equal-confidence entries: the deterministic model of the
SELECT * FROM votes ORDER BY confidence DESC of line 65. -/
def insertByConfDesc (v : Vote × String) : List (Vote × String) → List (Vote × String)
  | [] => [v]
  | w :: rest =>
      if w.1.confidence < v.1.confidence then v :: w :: rest
      else w :: insertByConfDesc v rest

/-- Stable descending sort by confidence (insertion sort). -/
def orderByConfDesc (l : List (Vote × String)) : List (Vote × String) :=
  l.foldr insertByConfDesc []

/-- The vote table of one ShieldConsensus durable object: rows keyed by
model_id (PRIMARY KEY, line 40), kept in rowid order. -/
abbrev VoteStore : Type := List (String × Vote)

/-- INSERT OR REPLACE INTO votes (lines 57-61): SQLite REPLACE deletes the
conflicting row and appends the new one with a fresh rowid, so the row keyed
by modelId moves to the end of the table. -/
def submitVoteStore (st : VoteStore) (modelId : String) (v : Vote) : VoteStore :=
  st.filter (fun p => !(p.1 == modelId)) ++ [(modelId, v)]

/-- The consensus recomputed from the current table contents, reading rows
ORDER BY confidence DESC (lines 64-68). -/
def snapshotOfStore (st : VoteStore) : ConsensusResult :=
  calculateConsensus ((orderByConfDesc (st.map (fun p => (p.2, p.1)))).map Prod.fst)

/-- The object returned by submitVote (lines 76-81); the stored votes list is
returned alongside. -/
structure SubmitResult where
  vote_accepted : Bool
  total_votes : ℕ
  consensus : ConsensusResult
deriving DecidableEq, Repr

/-- submitVote (lines 53-82): unconditionally upserts the vote, recomputes the
consensus and reports vote_accepted: true.  No range, enum or weight check is
performed anywhere in the function. -/
def submitVote (st : VoteStore) (modelId : String) (v : Vote) :
    SubmitResult × VoteStore :=
  let st2 := submitVoteStore st modelId v
  ({ vote_accepted := true
   , total_votes := st2.length
   , consensus := snapshotOfStore st2 }, st2)

/-- The two outcomes of handleConsensusVote (lines 304-364): the 400 response
of lines 311-316 or the durable-object result. -/
inductive HandleVoteResponse where
  | badRequest (msg : String)
  | ok (result : SubmitResult)
deriving DecidableEq, Repr

/-- True when the response carries an accepted vote. -/
def responseAccepted : HandleVoteResponse → Bool
  | HandleVoteResponse.ok r => r.vote_accepted
  | HandleVoteResponse.badRequest _ => false

/-- handleConsensusVote (lines 304-364): the only validation is the presence
check if (!claim_id || !model_id || !vote) of line 311 — a JavaScript
falsiness test, modelled by Option with none for a missing field.  When all
three are present the vote object is forwarded untouched to submitVote. -/
def handleConsensusVote (claimId modelId : Option String) (vote : Option Vote)
    (st : VoteStore) : HandleVoteResponse × VoteStore :=
  match claimId, modelId, vote with
  | some _, some mId, some v =>
      let r := submitVote st mId v
      (HandleVoteResponse.ok r.1, r.2)
  | _, _, _ =>
      (HandleVoteResponse.badRequest "claim_id, model_id, and vote object required", st)

/- ================================================================
   Part 2 — Durable workflow pipeline
   (src/cloudflare-workers/vetproof-workflow.js, class VetProofPipeline)
   ================================================================ -/

/-- A successful model vote inside the verify step (lines 209-222): the model
name and weight come from the models table of lines 171-174, verdict and
confidence from the parsed JSON response. -/
structure WVote where
  model : String
  weight : ℚ
  verdict : String
  confidence : ℚ
deriving DecidableEq, Repr

/-- verdictCounts[v] = (verdictCounts[v] || 0) + w (line 247): weighted bump
in insertion order. -/
def bumpCountQ (acc : List (String × ℚ)) (k : String) (w : ℚ) : List (String × ℚ) :=
  if acc.any (fun p => p.1 == k) then
    acc.map (fun p => if p.1 == k then (p.1, p.2 + w) else p)
  else acc ++ [(k, w)]

/-- The weighted verdictCounts object of lines 240-248. -/
def wfVerdictWeights (votes : List WVote) : List (String × ℚ) :=
  votes.foldl (fun acc v => bumpCountQ acc v.verdict v.weight) []

/-- The majority-search loop of lines 252-260: majorityVerdict starts at
NO_CONSENSUS with maxWeight 0 and is replaced only on strictly greater
weight, so the earliest entry of maximal weight wins. -/
def wfTopEntry (votes : List WVote) : String × ℚ :=
  (wfVerdictWeights votes).foldl
    (fun best p => if best.2 < p.2 then p else best) ("NO_CONSENSUS", 0)

/-- totalWeight accumulated by the loop of lines 238-248. -/
def wfTotalWeight (votes : List WVote) : ℚ :=
  votes.foldl (fun s v => s + v.weight) 0

/-- weightedConfidence accumulated by the loop of lines 238-248. -/
def wfWeightedSum (votes : List WVote) : ℚ :=
  votes.foldl (fun s v => s + v.confidence * v.weight) 0

/-- avgConfidence = totalWeight > 0 ? weightedConfidence / totalWeight : 0
(line 250). -/
def wfAvgConfidence (votes : List WVote) : ℚ :=
  if 0 < wfTotalWeight votes then wfWeightedSum votes / wfTotalWeight votes else 0

/-- agreementRatio = maxWeight / totalWeight (line 263). -/
def wfAgreementRatio (votes : List WVote) : ℚ :=
  (wfTopEntry votes).2 / wfTotalWeight votes

/-- bftThreshold = 2 / 3 (line 264). -/
def wfBftThreshold : ℚ := 2/3

/-- consensusReached = agreementRatio >= bftThreshold (line 265): note the
non-strict comparison. -/
def wfConsensusReached (votes : List WVote) : Bool :=
  decide (wfBftThreshold ≤ wfAgreementRatio votes)

/-- mean = confidences.reduce((a, b) => a + b, 0) / confidences.length
(line 269). -/
def wfConfMean (votes : List WVote) : ℚ :=
  (votes.foldl (fun s v => s + v.confidence) 0) / (votes.length : ℚ)

/-- The argument of Math.sqrt at lines 270-272: the unweighted variance of
the confidences. -/
def wfConfVariance (votes : List WVote) : ℚ :=
  (votes.foldl (fun s v => s + (v.confidence - wfConfMean votes) ^ 2) 0)
    / (votes.length : ℚ)

/-- constitutionalHalt = stdDev > 0.25 (line 273), embedded on the variance
as σ_var² < variance (see sqrt_variance_gt_iff). -/
def wfConstitutionalHalt (votes : List WVote) : Bool :=
  decide (sigmaVar ^ 2 < wfConfVariance votes)

/-- The object returned by the shield-consensus-verify step (lines 228-292).
confidence_variance carries the value whose square root the source stores as
confidence_std_dev.  The NO_QUORUM early return of lines 228-235 omits the
numeric fields; they are modelled by their JavaScript falsy readings (false
and 0), which is how the detect step would observe them; no claim below
depends on these defaults. -/
structure VerifyResult where
  consensus : String
  consensus_reached : Bool
  agreement_ratio : ℚ
  bft_threshold : ℚ
  weighted_confidence : ℚ
  confidence_variance : ℚ
  constitutional_halt : Bool
  votes : List WVote
  failed_models : ℕ
deriving DecidableEq, Repr

/-- The verify-step aggregation applied to the successfully parsed votes
(lines 228-292); failed_models is carried as a parameter of the run and not
used by any claim, so it is fixed to 0 here. -/
def wfVerify (votes : List WVote) : VerifyResult :=
  match votes with
  | [] =>
      { consensus := "NO_QUORUM", consensus_reached := false, agreement_ratio := 0
      , bft_threshold := wfBftThreshold, weighted_confidence := 0
      , confidence_variance := 0, constitutional_halt := false
      , votes := [], failed_models := 0 }
  | v :: rest =>
      { consensus :=
          if wfConsensusReached (v :: rest) then (wfTopEntry (v :: rest)).1
          else "NO_CONSENSUS"
      , consensus_reached := wfConsensusReached (v :: rest)
      , agreement_ratio := wfAgreementRatio (v :: rest)
      , bft_threshold := wfBftThreshold
      , weighted_confidence := wfAvgConfidence (v :: rest)
      , confidence_variance := wfConfVariance (v :: rest)
      , constitutional_halt := wfConstitutionalHalt (v :: rest)
      , votes := v :: rest
      , failed_models := 0 }

/-- flagCount = Object.values(checks).filter(Boolean).length (line 313): the
number of true entries among the five checks of lines 305-311.  The two
standard-deviation comparisons are embedded on the variance
(stdDev > 0.3 iff variance > 0.3², stdDev > σ_var iff variance > σ_var²). -/
def detectFlagCount (ver : VerifyResult) (sim : ℚ) : ℕ :=
  (if ver.constitutional_halt then 1 else 0)
  + (if ver.consensus_reached then 0 else 1)
  + (if ver.weighted_confidence < 1/2 then 1 else 0)
  + (if (3/10 : ℚ) ^ 2 < ver.confidence_variance then 1 else 0)
  + (if sim < 2/5 then 1 else 0)

/-- The object returned by the hallucination-detect step (lines 303-323). -/
structure DetectResult where
  confidence_anomaly : Bool
  no_consensus : Bool
  low_confidence : Bool
  high_disagreement : Bool
  low_evidence_match : Bool
  flag_count : ℕ
  trust_score : ℚ
  halt_required : Bool
deriving DecidableEq, Repr

/-- The hallucination-detect step (lines 303-323): sim is
embeddings.claim_evidence_similarity; trustScore = max(0, 1 - flagCount*0.2)
(line 314); halt_required = flagCount >= 3 || verification.constitutional_halt
(line 320). -/
def detectStep (ver : VerifyResult) (sim : ℚ) : DetectResult :=
  { confidence_anomaly := ver.constitutional_halt
  , no_consensus := !ver.consensus_reached
  , low_confidence := decide (ver.weighted_confidence < 1/2)
  , high_disagreement := decide ((3/10 : ℚ) ^ 2 < ver.confidence_variance)
  , low_evidence_match := decide (sim < 2/5)
  , flag_count := detectFlagCount ver sim
  , trust_score := max 0 (1 - (detectFlagCount ver sim : ℚ) * (1/5))
  , halt_required := decide (3 ≤ detectFlagCount ver sim) || ver.constitutional_halt }

/-- steps.sanitize of the proof bundle (lines 338-342). -/
structure SanitizeSummary where
  has_pii : Bool
  pii_types : List String
  original_hash : String
deriving DecidableEq, Repr

/-- steps.embed of the proof bundle (lines 343-346). -/
structure EmbedSummary where
  similarity : ℚ
  vectors_stored : Bool
deriving DecidableEq, Repr

/-- steps.search of the proof bundle (lines 347-349). -/
structure SearchSummary where
  similar_claims_found : ℕ
deriving DecidableEq, Repr

/-- steps.verify of the proof bundle (lines 350-356). -/
structure VerifyStepSummary where
  consensus : String
  confidence : ℚ
  agreement_ratio : ℚ
  constitutional_halt : Bool
  model_count : ℕ
deriving DecidableEq, Repr

/-- steps.detect of the proof bundle (lines 357-361). -/
structure DetectStepSummary where
  trust_score : ℚ
  halt_required : Bool
  flags : ℕ
deriving DecidableEq, Repr

/-- steps of the proof bundle (lines 337-362). -/
structure StepsSummary where
  sanitize : SanitizeSummary
  embed : EmbedSummary
  search : SearchSummary
  verify : VerifyStepSummary
  detect : DetectStepSummary
deriving DecidableEq, Repr

/-- The proofBundle object composed by the sign-and-archive step (lines
334-372), after the proof_hash field is attached at line 372; the hash and
the timestamp are inert parameters here. -/
structure ProofBundle where
  claim_id : String
  pipeline_version : String
  steps : StepsSummary
  verdict : String
  final_confidence : ℚ
  trust_score : ℚ
  timestamp : String
  duration_ms : ℕ
  proof_hash : String
deriving DecidableEq, Repr

/-- The sign-and-archive composition (lines 334-368): in particular
verdict = detection.halt_required ? HALTED_FOR_REVIEW : verification.consensus
(line 363) and final_confidence = detection.halt_required ? 0 :
verification.weighted_confidence (line 364). -/
def mkProofBundle (claimId : String) (san : SanitizeSummary) (sim : ℚ)
    (searchCount : ℕ) (ver : VerifyResult) (det : DetectResult)
    (timestamp : String) (durationMs : ℕ) (proofHash : String) : ProofBundle :=
  { claim_id := claimId
  , pipeline_version := "2.0.0"
  , steps :=
      { sanitize := san
      , embed := { similarity := sim, vectors_stored := true }
      , search := { similar_claims_found := searchCount }
      , verify :=
          { consensus := ver.consensus
          , confidence := ver.weighted_confidence
          , agreement_ratio := ver.agreement_ratio
          , constitutional_halt := ver.constitutional_halt
          , model_count := ver.votes.length }
      , detect :=
          { trust_score := det.trust_score
          , halt_required := det.halt_required
          , flags := det.flag_count } }
  , verdict := if det.halt_required then "HALTED_FOR_REVIEW" else ver.consensus
  , final_confidence := if det.halt_required then 0 else ver.weighted_confidence
  , trust_score := det.trust_score
  , timestamp := timestamp
  , duration_ms := durationMs
  , proof_hash := proofHash }

/-- The top-level JSON keys of the proofBundle written to R2 by the sign step
(vetproof-workflow.js lines 334-372), in construction order, after proof_hash
is attached. -/
def proofBundleKeys : List String :=
  ["claim_id", "pipeline_version", "steps", "verdict", "final_confidence",
   "trust_score", "timestamp", "duration_ms", "proof_hash"]

/-- The top-level JSON keys of the proof object written to R2 by processSign
(vetproof-consensus.js lines 716-724). -/
def processSignProofKeys : List String :=
  ["claim_id", "proof_hash", "pipeline_complete", "stages_completed",
   "final_payload", "signed_at"]

/-- The top-level JSON keys of the proofData object written by the HITL
sign-proof step (regulation-tracker.js lines 742-763), after proof_hash is
attached at line 763. -/
def hitlProofKeys : List String :=
  ["id", "claim_id", "type", "claim_type", "condition", "screening_confidence",
   "risk_level", "reviewer", "auto_approved", "approved_at",
   "constitutional_halt", "processing_time_ms", "proof_hash"]

/- ================================================================
   Part 3 — Proof agent consensus
   (src/cloudflare-workers/proof-agent.js, verifyClaimInternal)
   ================================================================ -/

/-- One vote collected in verifyClaimInternal (lines 342-381): parse failures
are pushed with verdict ERROR and confidence 0. -/
structure AVote where
  model : String
  verdict : String
  confidence : ℚ
  reasoning : String
deriving DecidableEq, Repr

/-- validVotes = votes.filter(v => v.verdict !== ERROR) (line 384). -/
def agentValidVotes (votes : List AVote) : List AVote :=
  votes.filter (fun v => !(v.verdict == "ERROR"))

/-- totalConfidence = validVotes.reduce((sum, v) => sum + v.confidence, 0)
(line 389). -/
def agentTotalConfidence (votes : List AVote) : ℚ :=
  (agentValidVotes votes).foldl (fun s v => s + v.confidence) 0

/-- avgConfidence = validVotes.length > 0 ? totalConfidence /
validVotes.length : 0 (line 390). -/
def agentAvgConfidence (votes : List AVote) : ℚ :=
  if 0 < (agentValidVotes votes).length then
    agentTotalConfidence votes / ((agentValidVotes votes).length : ℚ)
  else 0

/-- variance = confidences.length > 0 ? confidences.reduce((sum, c) => sum +
(c - mean)^2, 0) / confidences.length : 0 (lines 395-397). -/
def agentConfVariance (votes : List AVote) : ℚ :=
  if 0 < (agentValidVotes votes).length then
    ((agentValidVotes votes).foldl
        (fun s v => s + (v.confidence - agentAvgConfidence votes) ^ 2) 0)
      / ((agentValidVotes votes).length : ℚ)
  else 0

/-- constitutionalHalt = stdDev > 0.25 (line 401), embedded on the variance
as σ_var² < variance (see sqrt_variance_gt_iff). -/
def agentConstitutionalHalt (votes : List AVote) : Bool :=
  decide (sigmaVar ^ 2 < agentConfVariance votes)

/-- The verdictCounts object of lines 404-407, built over the valid votes in
order. -/
def agentVerdictCounts (votes : List AVote) : List (String × ℕ) :=
  (agentValidVotes votes).foldl (fun acc v => bumpCountN acc v.verdict) []

/-- majorityVerdict = Object.entries(verdictCounts).sort((a, b) => b[1] -
a[1])[0]?.[0] || INSUFFICIENT_EVIDENCE (lines 408-409): earliest entry of
maximal count, with the fallback when there is no entry. -/
def agentMajorityVerdict (votes : List AVote) : String :=
  ((agentVerdictCounts votes).foldl
      (fun best p => if best.2 < p.2 then p else best)
      ("INSUFFICIENT_EVIDENCE", 0)).1

/-- finalVerdict = constitutionalHalt ? CONSTITUTIONAL_HALT : majorityVerdict
(line 412). -/
def agentFinalVerdict (votes : List AVote) : String :=
  if agentConstitutionalHalt votes then "CONSTITUTIONAL_HALT"
  else agentMajorityVerdict votes

/- ================================================================
   Part 4 — Regulation tracker: domain thresholds and the HITL gate
   (src/cloudflare-workers/regulation-tracker.js)
   ================================================================ -/

/-- halt_threshold per vertical from the VERTICALS table (lines 1099-1148);
none for an unknown vertical, which routing rejects (lines 1166-1172). -/
def vertHaltThreshold : String → Option ℚ
  | "vetproof" => some (67/100)
  | "legal" => some (70/100)
  | "finance" => some (75/100)
  | "health" => some (80/100)
  | "education" => some (65/100)
  | "aviation" => some (85/100)
  | _ => none

/-- The object returned by the constitutional-halt step (lines 1248-1263). -/
structure HaltCheck where
  halt_triggered : Bool
  risk_level : String
deriving DecidableEq, Repr

/-- The constitutional-halt step of CollectiveOrchestrationWorkflow (lines
1248-1263): haltTriggered = confidence < threshold (line 1251, strict);
riskFactorCount is domainAnalysis.risk_factors.length. -/
def collectiveHaltCheck (threshold confidence : ℚ) (riskFactorCount : ℕ) : HaltCheck :=
  { halt_triggered := decide (confidence < threshold)
  , risk_level :=
      if confidence < 2/5 then "critical"
      else if confidence < threshold then "high"
      else if 2 < riskFactorCount then "medium"
      else "low" }

/-- A decision delivered to the HITL gate (lines 713-736): either a human
decision from waitForEvent or the synthetic auto-approval of lines 725-732.
reviewer is Option to model the JavaScript || fallback on a missing field. -/
structure HITLDecision where
  decision : String
  reviewer : Option String
  reason : String
  auto : Bool
deriving DecidableEq, Repr

/-- isApproved = decision.decision === approved (line 737). -/
def hitlIsApproved (d : HITLDecision) : Bool := d.decision == "approved"

/-- Context of one HITLApprovalWorkflow run as consumed by the sign-proof
step: claim fields, screening confidence and the risk assessment (lines
622-651). -/
structure HITLContext where
  claimId : String
  claim_type : String
  condition : String
  screening_confidence : ℚ
  risk_level : String
  halt_triggered : Bool
deriving DecidableEq, Repr

/-- The proofData record built by the sign-proof step (lines 742-763); the
proof hash is computed from its serialization and carried inertly. -/
structure HITLProofData where
  id : String
  claim_id : String
  proof_type : String
  claim_type : String
  condition : String
  screening_confidence : ℚ
  risk_level : String
  reviewer : String
  auto_approved : Bool
  approved_at : String
  constitutional_halt : Bool
  processing_time_ms : ℕ
deriving DecidableEq, Repr

/-- Step 6 of HITLApprovalWorkflow.run (lines 739-791): the sign-proof step
runs only when isApproved; otherwise proof stays null.  type is the literal
vetproof_hitl_approved of line 746. -/
def hitlSignProof (ctx : HITLContext) (d : HITLDecision) (proofId approvedAt : String)
    (ms : ℕ) : Option HITLProofData :=
  if hitlIsApproved d then
    some { id := proofId
         , claim_id := ctx.claimId
         , proof_type := "vetproof_hitl_approved"
         , claim_type := ctx.claim_type
         , condition := ctx.condition
         , screening_confidence := ctx.screening_confidence
         , risk_level := ctx.risk_level
         , reviewer := d.reviewer.getD "auto-approve"
         , auto_approved := d.auto
         , approved_at := approvedAt
         , constitutional_halt := ctx.halt_triggered
         , processing_time_ms := ms }
  else none

/-- The object returned by HITLApprovalWorkflow.run (lines 818-829). -/
structure HITLResult where
  claimId : String
  status : String
  decision : String
  reviewer : String
  auto_approved : Bool
  risk_level : String
  halt_triggered : Bool
  screening_confidence : ℚ
  proof : Option HITLProofData
deriving DecidableEq, Repr

/-- Steps 5-7 of HITLApprovalWorkflow.run (lines 735-829): process the
decision, sign a proof only when approved, return the result record. -/
def hitlFinalize (ctx : HITLContext) (d : HITLDecision) (proofId approvedAt : String)
    (ms : ℕ) : HITLResult :=
  { claimId := ctx.claimId
  , status := if hitlIsApproved d then "approved" else "rejected"
  , decision := d.decision
  , reviewer := d.reviewer.getD "auto-approve"
  , auto_approved := d.auto
  , risk_level := ctx.risk_level
  , halt_triggered := ctx.halt_triggered
  , screening_confidence := ctx.screening_confidence
  , proof := hitlSignProof ctx d proofId approvedAt ms }

/- ================================================================
   Concrete inputs used by counterexamples and witnesses
   ================================================================ -/

/-- Three equal-weight workflow votes whose majority holds exactly 2/3 of the
weight. -/
def exTwoThirds : List WVote :=
  [{ model := "m1", weight := 1, verdict := "VERIFIED", confidence := 9/10 },
   { model := "m2", weight := 1, verdict := "VERIFIED", confidence := 9/10 },
   { model := "m3", weight := 1, verdict := "UNVERIFIED", confidence := 9/10 }]

/-- Three engine votes whose majority holds exactly 2 of 3. -/
def exEngineThird : List Vote :=
  [{ verdict := "VERIFIED", confidence := 9/10, coherence_score := 9/10, reasoning := "" },
   { verdict := "VERIFIED", confidence := 88/100, coherence_score := 85/100, reasoning := "" },
   { verdict := "UNVERIFIED", confidence := 86/100, coherence_score := 84/100, reasoning := "" }]

/-- Three unanimous workflow votes, all with confidence 0.5: weighted mean 0.5
(below every domain threshold) and zero variance. -/
def exLowMeanVotes : List WVote :=
  [{ model := "m1", weight := 1, verdict := "VERIFIED", confidence := 1/2 },
   { model := "m2", weight := 1, verdict := "VERIFIED", confidence := 1/2 },
   { model := "m3", weight := 1, verdict := "VERIFIED", confidence := 1/2 }]

/-- Two workflow votes with confidences 0.95 and 0.30: variance 0.105625,
above σ_var² = 0.0625, so the variance-based halt flag fires. -/
def exSplitVotes : List WVote :=
  [{ model := "m1", weight := 1, verdict := "VERIFIED", confidence := 19/20 },
   { model := "m2", weight := 1, verdict := "UNVERIFIED", confidence := 3/10 }]

/-- Two valid agent votes with confidences 0 and 1: variance 0.25 > 0.0625. -/
def exAgentSplit : List AVote :=
  [{ model := "a1", verdict := "VERIFIED", confidence := 0, reasoning := "" },
   { model := "a2", verdict := "VERIFIED", confidence := 1, reasoning := "" }]

/-- An agent vote recorded after a model error (verdict ERROR, confidence 0),
excluded from the valid set. -/
def exErrVote : AVote :=
  { model := "a1", verdict := "ERROR", confidence := 0, reasoning := "model error" }

/-- First of two unanimous engine votes. -/
def exVoteA : Vote :=
  { verdict := "VERIFIED", confidence := 9/10, coherence_score := 9/10, reasoning := "" }

/-- Second of two unanimous engine votes. -/
def exVoteB : Vote :=
  { verdict := "VERIFIED", confidence := 86/100, coherence_score := 84/100, reasoning := "" }

/-- Two unanimous engine votes: fewer than three votes. -/
def exUnanimousPair : List Vote := [exVoteA, exVoteB]

/-- Two engine votes with confidences 0.25 and 0.75: variance exactly
σ_var² = 0.0625, i.e. standard deviation exactly 0.25. -/
def exBoundaryPair : List Vote :=
  [{ verdict := "VERIFIED", confidence := 1/4, coherence_score := 1, reasoning := "" },
   { verdict := "VERIFIED", confidence := 3/4, coherence_score := 1, reasoning := "" }]

/-- Two engine votes with confidences 0 and 1: variance 0.25, strictly above
σ_var². -/
def exWidePair : List Vote :=
  [{ verdict := "VERIFIED", confidence := 0, coherence_score := 1, reasoning := "" },
   { verdict := "VERIFIED", confidence := 1, coherence_score := 1, reasoning := "" }]

/-- A vote violating every range rule of the specification: confidence 7,
coherence -2, verdict outside the closed verdict set. -/
def badVote : Vote :=
  { verdict := "TOTALLY_BOGUS", confidence := 7, coherence_score := -2, reasoning := "" }

/-- A sanitize-step summary for bundle composition. -/
def exSanitize : SanitizeSummary :=
  { has_pii := false, pii_types := [], original_hash := "h0" }

/-- A human rejection decision. -/
def exRejection : HITLDecision :=
  { decision := "rejected", reviewer := some "reviewer-1",
    reason := "insufficient evidence", auto := false }

/-- Context of a constitutionally halted claim awaiting HITL review:
screening confidence 0.31, below the 0.67 threshold. -/
def exHaltCtx : HITLContext :=
  { claimId := "claim-1", claim_type := "disability_compensation",
    condition := "tinnitus", screening_confidence := 31/100,
    risk_level := "high", halt_triggered := true }

/- ================================================================
   Helper lemmas
   ================================================================ -/

/-- The source compares sqrt(variance) > c; on nonnegative c this is the
comparison variance > c² used by the embedding. -/
theorem sqrt_variance_gt_iff (v c : ℚ) (hc : 0 ≤ c) :
    ((c : ℝ) < Real.sqrt (v : ℝ)) ↔ c ^ 2 < v := by
  rw [Real.lt_sqrt (by exact_mod_cast hc)]
  constructor <;> intro h <;> exact_mod_cast h

/-- Accumulating positive weights never decreases the accumulator. -/
theorem foldl_weight_ge (l : List WVote) :
    (∀ v ∈ l, 0 < v.weight) → ∀ a : ℚ, a ≤ l.foldl (fun s v => s + v.weight) a := by
  induction l with
  | nil => intro _ a; exact le_refl a
  | cons v t ih =>
      intro h a
      have hv : 0 < v.weight := h v (List.mem_cons_self v t)
      have ht := ih (fun u hu => h u (List.mem_cons_of_mem v hu)) (a + v.weight)
      simp only [List.foldl_cons]
      linarith


/-- The two non-equal verdict tags occurring in the concrete inputs. -/
theorem str_verified_ne_unverified : ("VERIFIED" : String) ≠ "UNVERIFIED" := by decide

/-- Symmetric form used when the keys appear in the other order. -/
theorem str_unverified_ne_verified : ("UNVERIFIED" : String) ≠ "VERIFIED" := by decide

/-- VERIFIED is not the ERROR tag, so such votes pass the validity filter. -/
theorem str_verified_ne_error : ("VERIFIED" : String) ≠ "ERROR" := by decide

/-- Evaluation: the 0.95/0.30 split vote set has confidence variance
0.105625 > σ_var², so the workflow halt flag fires. -/
theorem eval_exSplitVotes_halt : (wfVerify exSplitVotes).constitutional_halt = true := by
  norm_num [exSplitVotes, wfVerify, wfConstitutionalHalt, wfConfVariance, wfConfMean,
    sigmaVar]

/-- Evaluation: the 0/1 split agent vote set has variance 0.25 > σ_var². -/
theorem eval_exAgentSplit_halt : agentConstitutionalHalt exAgentSplit = true := by
  norm_num [exAgentSplit, agentConstitutionalHalt, agentConfVariance, agentAvgConfidence,
    agentTotalConfidence, agentValidVotes, sigmaVar, str_verified_ne_error]

/-- Evaluation: the detect step on the split vote set demands a halt. -/
theorem eval_exSplitVotes_detect_halt :
    (detectStep (wfVerify exSplitVotes) (1/2)).halt_required = true := by
  simp [detectStep, eval_exSplitVotes_halt]

/-- Evaluation: with two agreeing votes of weight 1 against one, the workflow
agreement ratio is exactly 2/3. -/
theorem eval_exTwoThirds_ratio : (wfVerify exTwoThirds).agreement_ratio = 2/3 := by
  norm_num [exTwoThirds, wfVerify, wfAgreementRatio, wfTopEntry, wfVerdictWeights,
    bumpCountQ, wfTotalWeight, str_verified_ne_unverified, str_unverified_ne_verified]

/-- Evaluation: the engine agreement percentage on the 2-of-3 vote set. -/
theorem eval_exEngineThird_pct : (consensusOf exEngineThird).agreement_pct = 2/3 := by
  norm_num [exEngineThird, consensusOf, majorityPct, consTopEntry, countVerdicts,
    bumpCountN, str_verified_ne_unverified, str_unverified_ne_verified]

/-- Evaluation: the boundary pair 0.25/0.75 has variance exactly σ_var². -/
theorem eval_exBoundaryPair_variance :
    (consensusOf exBoundaryPair).confidence_variance = sigmaVar ^ 2 := by
  norm_num [exBoundaryPair, consensusOf, confVariance, consAvgConfidence, sigmaVar]

/-- Evaluation: the wide pair 0/1 has variance 0.25, strictly above σ_var². -/
theorem eval_exWidePair_variance :
    sigmaVar ^ 2 < (consensusOf exWidePair).confidence_variance := by
  norm_num [exWidePair, consensusOf, confVariance, consAvgConfidence, sigmaVar]

/- ================================================================
   Claim theorems
   ================================================================ -/

/-- C1: whenever the halt flag of the verify snapshot is set (the
constitutional_halt field, the only halt flag the snapshots carry, serving
both the Variance-Halt and Constitutional-Halt roles of the specification),
the verdict of the signed proof bundle is the halt verdict HALTED_FOR_REVIEW
and never the majority verdict; likewise the proof agent emits
CONSTITUTIONAL_HALT instead of the majority verdict when its halt flag is
set. -/
theorem halt_flag_forces_halt_verdict :
    (∀ (votes : List WVote) (sim : ℚ) (cid ts ph : String) (san : SanitizeSummary)
        (sc dur : ℕ),
        (wfVerify votes).constitutional_halt = true →
        (mkProofBundle cid san sim sc (wfVerify votes)
            (detectStep (wfVerify votes) sim) ts dur ph).verdict = "HALTED_FOR_REVIEW")
    ∧ (∀ avotes : List AVote, agentConstitutionalHalt avotes = true →
        agentFinalVerdict avotes = "CONSTITUTIONAL_HALT") := by
  constructor
  · intro votes sim cid ts ph san sc dur h
    simp [mkProofBundle, detectStep, h]
  · intro avotes h
    simp [agentFinalVerdict, h]

/-- Witness for C1 at the 0.95/0.30 split vote set. -/
theorem halt_flag_forces_halt_verdict_witness :
    (mkProofBundle "c1" exSanitize (1/2) 0 (wfVerify exSplitVotes)
        (detectStep (wfVerify exSplitVotes) (1/2)) "t" 0 "h").verdict
      = "HALTED_FOR_REVIEW"
    ∧ agentFinalVerdict exAgentSplit = "CONSTITUTIONAL_HALT" :=
  ⟨halt_flag_forces_halt_verdict.1 exSplitVotes (1/2) "c1" "t" "h" exSanitize 0 0
      eval_exSplitVotes_halt,
   halt_flag_forces_halt_verdict.2 exAgentSplit eval_exAgentSplit_halt⟩

/-- C2 counterexample: three equal-weight valid votes whose majority holds
exactly 2/3 of the total weight DO reach BFT consensus in the workflow verify
step, because its comparison agreementRatio >= 2/3 is non-strict. -/
theorem bft_two_thirds_boundary_refuted :
    exTwoThirds.length = 3
    ∧ (wfVerify exTwoThirds).agreement_ratio = 2/3
    ∧ (wfVerify exTwoThirds).consensus_reached = true := by
  refine ⟨by decide, eval_exTwoThirds_ratio, ?_⟩
  show wfConsensusReached exTwoThirds = true
  unfold wfConsensusReached
  have hr : wfAgreementRatio exTwoThirds = 2/3 := eval_exTwoThirds_ratio
  rw [hr]
  exact decide_eq_true (by norm_num [wfBftThreshold])

/-- C2 amended: in the consensus engine (calculateConsensus) three votes with
the majority at exactly 2/3 do not reach BFT, since the threshold is
(2n+2)/(3n) = 8/9 for n = 3; but in the workflow verify step the comparison is
agreementRatio >= 2/3, so a majority holding exactly 2/3 of the weight does
reach consensus there. -/
theorem bft_two_thirds_strict_only_in_engine :
    (∀ votes : List Vote, votes.length = 3 →
        (consensusOf votes).agreement_pct = 2/3 →
        (consensusOf votes).status = "DISAGREEMENT")
    ∧ (∀ wv : List WVote, wv ≠ [] → (wfVerify wv).agreement_ratio = 2/3 →
        (wfVerify wv).consensus_reached = true) := by
  constructor
  · intro votes hlen hpct
    have hp : majorityPct votes = 2/3 := hpct
    have hb : consHasConsensus votes = false := by
      unfold consHasConsensus
      rw [hlen, hp]
      exact decide_eq_false (by norm_num [consBftThreshold])
    simp [consensusOf, hb]
  · intro wv hne hr
    cases wv with
    | nil => exact absurd rfl hne
    | cons v t =>
        have hr2 : wfAgreementRatio (v :: t) = 2/3 := hr
        show wfConsensusReached (v :: t) = true
        unfold wfConsensusReached
        rw [hr2]
        exact decide_eq_true (by norm_num [wfBftThreshold])

/-- Witness for C2 amended at the concrete 2-of-3 vote sets. -/
theorem bft_two_thirds_strict_only_in_engine_witness :
    (consensusOf exEngineThird).status = "DISAGREEMENT"
    ∧ (wfVerify exTwoThirds).consensus_reached = true :=
  ⟨bft_two_thirds_strict_only_in_engine.1 exEngineThird (by decide)
      eval_exEngineThird_pct,
   bft_two_thirds_strict_only_in_engine.2 exTwoThirds (by decide)
      eval_exTwoThirds_ratio⟩

/-- C3 counterexample: three unanimous votes with confidence 0.5 leave the
weighted mean at 0.5, below the vetproof domain threshold 0.67, yet the
constitutional_halt flag of the verify snapshot is false — the flag is not a
weighted-mean-versus-domain-threshold test, and equality with a threshold is
irrelevant to it. -/
theorem constitutional_halt_not_confidence_threshold :
    (wfVerify exLowMeanVotes).weighted_confidence = 1/2
    ∧ (wfVerify exLowMeanVotes).weighted_confidence < 67/100
    ∧ (wfVerify exLowMeanVotes).constitutional_halt = false := by
  have hw : (wfVerify exLowMeanVotes).weighted_confidence = 1/2 := by
    norm_num [exLowMeanVotes, wfVerify, wfAvgConfidence, wfWeightedSum, wfTotalWeight]
  refine ⟨hw, by rw [hw]; norm_num, ?_⟩
  show wfConstitutionalHalt exLowMeanVotes = false
  exact decide_eq_false (by
    norm_num [exLowMeanVotes, wfConfVariance, wfConfMean, sigmaVar])

/-- C3 amended: the constitutional_halt flag of the consensus snapshots is a
variance test (true iff the unweighted confidence variance exceeds σ_var²,
i.e. the standard deviation exceeds 0.25); the domain thresholds vetproof
0.67, legal 0.70, finance 0.75, health 0.80, education 0.65, aviation 0.85
live in the regulation-tracker constitutional-halt gate, which triggers iff
confidence is strictly below the threshold — equality does not trigger. -/
theorem constitutional_halt_variance_semantics :
    (∀ wv : List WVote, wv ≠ [] →
        ((wfVerify wv).constitutional_halt = true ↔ sigmaVar ^ 2 < wfConfVariance wv))
    ∧ (vertHaltThreshold "vetproof" = some (67/100)
        ∧ vertHaltThreshold "legal" = some (70/100)
        ∧ vertHaltThreshold "finance" = some (75/100)
        ∧ vertHaltThreshold "health" = some (80/100)
        ∧ vertHaltThreshold "education" = some (65/100)
        ∧ vertHaltThreshold "aviation" = some (85/100))
    ∧ (∀ (t c : ℚ) (n : ℕ), (collectiveHaltCheck t c n).halt_triggered = true ↔ c < t)
    ∧ (∀ (t : ℚ) (n : ℕ), (collectiveHaltCheck t t n).halt_triggered = false) := by
  refine ⟨?_, ⟨rfl, rfl, rfl, rfl, rfl, rfl⟩, ?_, ?_⟩
  · intro wv hne
    cases wv with
    | nil => exact absurd rfl hne
    | cons v t => simp [wfVerify, wfConstitutionalHalt]
  · intro t c n
    simp [collectiveHaltCheck]
  · intro t n
    simp [collectiveHaltCheck]

/-- Witness for C3 amended at the unanimous 0.5-confidence vote set. -/
theorem constitutional_halt_variance_semantics_witness :
    (wfVerify exLowMeanVotes).constitutional_halt = true
      ↔ sigmaVar ^ 2 < wfConfVariance exLowMeanVotes :=
  constitutional_halt_variance_semantics.1 exLowMeanVotes (by decide)

/-- C4 counterexample: two unanimous votes — fewer than three — reach BFT
consensus in calculateConsensus: for n = 2 the threshold (2n+2)/(3n) equals
exactly 1 and the comparison is non-strict, so unanimity suffices.  No minimum
of three votes is enforced anywhere in the function. -/
theorem bft_reached_with_two_votes :
    exUnanimousPair.length = 2
    ∧ calculateConsensus exUnanimousPair = ConsensusResult.done (consensusOf exUnanimousPair)
    ∧ (consensusOf exUnanimousPair).status = "CONSENSUS" := by
  refine ⟨by decide, rfl, ?_⟩
  have hb : consHasConsensus exUnanimousPair = true := by
    apply decide_eq_true
    norm_num [exUnanimousPair, exVoteA, exVoteB, majorityPct, consTopEntry,
      countVerdicts, bumpCountN, consBftThreshold]
  simp [consensusOf, hb]

/-- C4 amended: a single valid vote never reaches BFT (its threshold is 4/3,
unreachable), the empty vote set yields the PENDING early return, but two
unanimous votes already reach BFT (threshold exactly 1, non-strict
comparison); the engine enforces no minimum of three valid votes. -/
theorem bft_minimum_votes_amended :
    (∀ v : Vote, (consensusOf [v]).status = "DISAGREEMENT")
    ∧ (∀ v w : Vote, v.verdict = w.verdict → (consensusOf [v, w]).status = "CONSENSUS")
    ∧ calculateConsensus [] = ConsensusResult.pending := by
  refine ⟨?_, ?_, rfl⟩
  · intro v
    have hb : consHasConsensus [v] = false := by
      apply decide_eq_false
      norm_num [majorityPct, consTopEntry, countVerdicts, bumpCountN, consBftThreshold]
    simp [consensusOf, hb]
  · intro v w h
    have hb : consHasConsensus [v, w] = true := by
      apply decide_eq_true
      norm_num [majorityPct, consTopEntry, countVerdicts, bumpCountN,
        consBftThreshold, h]
    simp [consensusOf, hb]

/-- Witness for C4 amended at concrete one- and two-vote sets. -/
theorem bft_minimum_votes_amended_witness :
    (consensusOf [exVoteA]).status = "DISAGREEMENT"
    ∧ (consensusOf [exVoteA, exVoteB]).status = "CONSENSUS" :=
  ⟨bft_minimum_votes_amended.1 exVoteA,
   bft_minimum_votes_amended.2.1 exVoteA exVoteB (by decide)⟩

/-- C5 counterexample: at a vote set whose confidence standard deviation is
exactly σ_var = 0.25 (variance exactly σ_var², and Real.sqrt of the stored
variance is exactly 0.25), the halt flag is false: the comparison
stdDev > 0.25 is strict, so the halt side does NOT win the tie. -/
theorem variance_halt_boundary_refuted :
    (consensusOf exBoundaryPair).confidence_variance = sigmaVar ^ 2
    ∧ (consensusOf exBoundaryPair).halt_triggered = false
    ∧ Real.sqrt ((consensusOf exBoundaryPair).confidence_variance : ℝ)
        = ((sigmaVar : ℚ) : ℝ) := by
  refine ⟨eval_exBoundaryPair_variance, ?_, ?_⟩
  · show consHaltTriggered exBoundaryPair = false
    apply decide_eq_false
    have h2 : confVariance exBoundaryPair = sigmaVar ^ 2 := eval_exBoundaryPair_variance
    rw [h2]
    exact lt_irrefl _
  · have h2 : (consensusOf exBoundaryPair).confidence_variance = sigmaVar ^ 2 :=
      eval_exBoundaryPair_variance
    rw [h2]
    have h3 : ((sigmaVar ^ 2 : ℚ) : ℝ) = ((sigmaVar : ℚ) : ℝ) ^ 2 := by push_cast; ring
    rw [h3]
    exact Real.sqrt_sq (by norm_num [sigmaVar])

/-- C5 amended: the variance halt triggers only when the standard deviation
strictly exceeds σ_var; when the variance equals σ_var² exactly (standard
deviation exactly 0.25) the flag is false, and when it strictly exceeds
σ_var² the flag is true. -/
theorem variance_halt_strict_amended :
    (∀ votes : List Vote, (consensusOf votes).confidence_variance = sigmaVar ^ 2 →
        (consensusOf votes).halt_triggered = false)
    ∧ (∀ votes : List Vote, sigmaVar ^ 2 < (consensusOf votes).confidence_variance →
        (consensusOf votes).halt_triggered = true) := by
  constructor
  · intro votes h
    have h2 : confVariance votes = sigmaVar ^ 2 := h
    show consHaltTriggered votes = false
    apply decide_eq_false
    rw [h2]
    exact lt_irrefl _
  · intro votes h
    have h2 : sigmaVar ^ 2 < confVariance votes := h
    exact decide_eq_true h2

/-- Witness for C5 amended at the boundary pair and the wide pair. -/
theorem variance_halt_strict_amended_witness :
    (consensusOf exBoundaryPair).halt_triggered = false
    ∧ (consensusOf exWidePair).halt_triggered = true :=
  ⟨variance_halt_strict_amended.1 exBoundaryPair eval_exBoundaryPair_variance,
   variance_halt_strict_amended.2 exWidePair eval_exWidePair_variance⟩

/-- C6 counterexample: a human rejection of a constitutionally halted claim
produces a run result with proof = none: the sign-proof step is guarded by
isApproved, so the halt/rejection path writes no proof record at all. -/
theorem hitl_rejection_no_proof_record :
    (hitlFinalize exHaltCtx exRejection "p1" "t1" 5).status = "rejected"
    ∧ (hitlFinalize exHaltCtx exRejection "p1" "t1" 5).halt_triggered = true
    ∧ (hitlFinalize exHaltCtx exRejection "p1" "t1" 5).proof = none :=
  ⟨rfl, rfl, rfl⟩

/-- C6 amended: the durable pipeline does tag and write a halt proof bundle
(verdict HALTED_FOR_REVIEW) whenever the detect step demands a halt, but the
HITL gate writes no proof record on any non-approved decision (rejection or
expiry): its sign-proof step runs only when the decision is approved. -/
theorem halt_proof_emission_amended :
    (∀ (ctx : HITLContext) (d : HITLDecision) (pid ts : String) (ms : ℕ),
        hitlIsApproved d = false → (hitlFinalize ctx d pid ts ms).proof = none)
    ∧ (∀ (cid ts ph : String) (san : SanitizeSummary) (sim : ℚ) (sc dur : ℕ)
        (ver : VerifyResult) (det : DetectResult), det.halt_required = true →
        (mkProofBundle cid san sim sc ver det ts dur ph).verdict
          = "HALTED_FOR_REVIEW") := by
  constructor
  · intro ctx d pid ts ms h
    simp [hitlFinalize, hitlSignProof, h]
  · intro cid ts ph san sim sc dur ver det h
    simp [mkProofBundle, h]

/-- Witness for C6 amended at a concrete rejection and a concrete halting
bundle. -/
theorem halt_proof_emission_amended_witness :
    (hitlFinalize exHaltCtx exRejection "p1" "t1" 5).proof = none
    ∧ (mkProofBundle "c1" exSanitize (1/2) 0 (wfVerify exSplitVotes)
        (detectStep (wfVerify exSplitVotes) (1/2)) "t" 0 "h").verdict
      = "HALTED_FOR_REVIEW" :=
  ⟨halt_proof_emission_amended.1 exHaltCtx exRejection "p1" "t1" 5 rfl,
   halt_proof_emission_amended.2 "c1" "t" "h" exSanitize (1/2) 0 0
      (wfVerify exSplitVotes) (detectStep (wfVerify exSplitVotes) (1/2))
      eval_exSplitVotes_detect_halt⟩

/-- C7 counterexample: none of the proof records written by the system — the
workflow sign bundle, the queue-consumer processSign record, the HITL
sign-proof record — carries a previous_hash key, so no pair of records can be
hash-linked as the claim asserts. -/
theorem proof_records_have_no_previous_hash :
    "previous_hash" ∉ proofBundleKeys
    ∧ "previous_hash" ∉ processSignProofKeys
    ∧ "previous_hash" ∉ hitlProofKeys := by decide

/-- C7 amended: each proof record carries only its own proof_hash and no
previous_hash; the records are independent objects (keyed in storage by claim
id and own hash) and form no explicit hash chain. -/
theorem proof_record_key_inventory :
    ("proof_hash" ∈ proofBundleKeys ∧ "previous_hash" ∉ proofBundleKeys)
    ∧ ("proof_hash" ∈ processSignProofKeys ∧ "previous_hash" ∉ processSignProofKeys)
    ∧ ("proof_hash" ∈ hitlProofKeys ∧ "previous_hash" ∉ hitlProofKeys) := by decide

/-- C8 counterexample: a vote with confidence 7, coherence -2 and a verdict
outside the closed verdict set sails through submit-vote: the response reports
vote_accepted and the out-of-range vote is stored — there is no range, enum or
weight validation and no invalid-input failure. -/
theorem out_of_range_vote_accepted :
    responseAccepted (handleConsensusVote (some "claim-1") (some "model-1")
        (some badVote) []).1 = true
    ∧ (handleConsensusVote (some "claim-1") (some "model-1") (some badVote) []).2
        = [("model-1", badVote)] :=
  ⟨rfl, rfl⟩

/-- C8 amended: submit-vote validates only the presence of claim_id, model_id
and the vote object (a missing field yields the 400 response and leaves the
store unchanged); when all three are present, ANY vote object — whatever its
confidence, coherence, verdict or absence of weight — is upserted into the
store and the snapshot recomputed. -/
theorem submit_vote_presence_only :
    (∀ (st : VoteStore) (cid mId : String) (v : Vote),
        (handleConsensusVote (some cid) (some mId) (some v) st).2
          = submitVoteStore st mId v
        ∧ (mId, v) ∈ (handleConsensusVote (some cid) (some mId) (some v) st).2)
    ∧ (∀ (st : VoteStore) (mId : String) (v : Vote),
        handleConsensusVote none (some mId) (some v) st
          = (HandleVoteResponse.badRequest
              "claim_id, model_id, and vote object required", st)) := by
  constructor
  · intro st cid mId v
    have h1 : (handleConsensusVote (some cid) (some mId) (some v) st).2
        = submitVoteStore st mId v := rfl
    refine ⟨h1, ?_⟩
    rw [h1]
    simp [submitVoteStore]
  · intro st mId v
    rfl

/-- C9: submitting the identical vote twice (same model id, same vote fields)
leaves the stored table — and therefore the recomputed consensus snapshot and
the submit-vote response — exactly as after a single submission: the REPLACE
removes the row it just appended and appends it again. -/
theorem duplicate_vote_submission_idempotent :
    ∀ (st : VoteStore) (mId : String) (v : Vote),
      submitVoteStore (submitVoteStore st mId v) mId v = submitVoteStore st mId v
      ∧ (submitVote (submitVoteStore st mId v) mId v).1 = (submitVote st mId v).1 := by
  intro st mId v
  have hstore : submitVoteStore (submitVoteStore st mId v) mId v
      = submitVoteStore st mId v := by
    simp [submitVoteStore, List.filter_append, List.filter_filter]
  exact ⟨hstore, by simp [submitVote, hstore]⟩

/-- C10: the consensus computations are total and never divide by zero: the
empty vote set short-circuits (PENDING in the engine, NO_QUORUM in the
workflow) before any division; every divisor of the engine is the positive
vote count, the workflow agreement-ratio divisor is the total weight, positive
whenever the configured weights are positive, and the agent guards its
averages so that the empty valid-vote set produces 0 without dividing. -/
theorem consensus_no_division_by_zero :
    calculateConsensus [] = ConsensusResult.pending
    ∧ (wfVerify []).consensus = "NO_QUORUM"
    ∧ (∀ votes : List Vote, votes ≠ [] → ((votes.length : ℚ) ≠ 0))
    ∧ (∀ wv : List WVote, wv ≠ [] → (∀ v ∈ wv, 0 < v.weight) → 0 < wfTotalWeight wv)
    ∧ (∀ av : List AVote, agentValidVotes av = [] →
        agentAvgConfidence av = 0 ∧ agentConfVariance av = 0) := by
  refine ⟨rfl, rfl, ?_, ?_, ?_⟩
  · intro votes h
    have h2 : votes.length ≠ 0 := by
      intro hl
      exact h (List.length_eq_zero.mp hl)
    exact_mod_cast h2
  · intro wv hne hw
    cases wv with
    | nil => exact absurd rfl hne
    | cons v t =>
        have hv : 0 < v.weight := hw v (List.mem_cons_self v t)
        have ht := foldl_weight_ge t
          (fun u hu => hw u (List.mem_cons_of_mem v hu)) (0 + v.weight)
        unfold wfTotalWeight
        simp only [List.foldl_cons]
        linarith
  · intro av h
    exact ⟨by simp [agentAvgConfidence, h], by simp [agentConfVariance, h]⟩

/-- Witness for C10 at concrete vote sets: a non-empty engine vote list, the
positively weighted workflow votes, and an agent vote list whose only vote is
an ERROR vote. -/
theorem consensus_no_division_by_zero_witness :
    ((exUnanimousPair.length : ℚ) ≠ 0)
    ∧ 0 < wfTotalWeight exTwoThirds
    ∧ (agentAvgConfidence [exErrVote] = 0 ∧ agentConfVariance [exErrVote] = 0) :=
  ⟨consensus_no_division_by_zero.2.2.1 exUnanimousPair (by decide),
   consensus_no_division_by_zero.2.2.2.1 exTwoThirds (by decide) (by decide),
   consensus_no_division_by_zero.2.2.2.2 [exErrVote] (by decide)⟩
